import Mathlib

/-!
Verification of the kpod `create_cli.go` validators:
`parseVolumes` / `validateVolumeHostDir` / `validateVolumeCtrDir` /
`validateVolumeOpts`, and the resource-limit validator
`verifyContainerResources`.

The Go code is embedded shallowly:

* Go strings are Lean `String`s; Go's `strings.SplitN(s, ":", 3)` and
  `strings.Split(s, ",")` are modelled by a structural character split
  (`splitOnChar`) so that everything evaluates by `rfl`/`decide`.
* `os.Stat` is an external collaborator and is passed in as an oracle
  `stat : String → Bool` (`true` = the stat call succeeds).
* A Go `panic` (out-of-bounds string index) is modelled as an explicit
  `VolRes.panics` result.
* `sysinfo.SysInfo` is an external collaborator: a record of capability
  booleans plus the two availability oracles
  (`String → Option Bool`, `none` modelling a non-nil Go error).
* `verifyContainerResources` is a straight-line sequence of if-blocks,
  each of which may mutate the config, append a warning, or return a
  hard error (early return).  Each if-block of the Go source is one
  element of the list `checks`; `runChecks` threads the state through
  them in order, accumulating warnings and stopping at the first error,
  which is exactly the Go early-return control flow.
-/

namespace Kpod

/-! ## Volume validation (`parseVolumes` and friends) -/

/-- Errors produced by the volume validators.  Each constructor is one
`errors.Errorf`/`errors.Wrapf` site of the Go source, carrying the values
that the Go format string interpolates. -/
inductive VolErr where
  | format (v : String)
  | hostDirCheck (host : String)
  | ctrDirInvalid (d : String)
  | optsRWRO (o : String)
  | optsLabel (o : String)
  | optsPropagation (o : String)
  | optUnknown (o : String)
deriving DecidableEq, Repr

/-- Result of a volume validation call: normal return with nil error,
normal return with a non-nil error, or a Go runtime panic. -/
inductive VolRes where
  | ok
  | err (e : VolErr)
  | panics
deriving DecidableEq, Repr

/-- Split a character list at every occurrence of `sep` (the semantics of
Go `strings.Split` for a one-character separator, on the character level;
the separators used here, `:` and `,`, are ASCII, for which the byte-wise
Go split and the character-wise split agree on UTF-8 input). -/
def splitOnChar (sep : Char) : List Char → List (List Char)
  | [] => [[]]
  | c :: rest =>
    match splitOnChar sep rest with
    | [] => [[]]
    | p :: ps => if c = sep then [] :: p :: ps else (c :: p) :: ps

/-- Rejoin character-list fragments with `sep` between them
(inverse of `splitOnChar` on the unsplit tail). -/
def joinWithChar (sep : Char) : List (List Char) → List Char
  | [] => []
  | p :: ps =>
    match ps with
    | [] => p
    | _ :: _ => p ++ sep :: joinWithChar sep ps

/-- Go `strings.Split(s, sep)` for a one-character separator. -/
def goSplit (s : String) (sep : Char) : List String :=
  (splitOnChar sep s.data).map String.mk

/-- Go `strings.SplitN(s, sep, 3)` for a one-character separator: at most
three parts, the third keeping any further separators un-split. -/
def goSplitN3 (s : String) (sep : Char) : List String :=
  match splitOnChar sep s.data with
  | a :: b :: c :: rest => [String.mk a, String.mk b, String.mk (joinWithChar sep (c :: rest))]
  | parts => parts.map String.mk

/-- `validateVolumeHostDir` from create_cli.go: a single `os.Stat` call,
wrapping any stat failure into an error.  The stat call is external and
passed in as the oracle `stat`. -/
def validateVolumeHostDir (stat : String → Bool) (hostDir : String) : Option VolErr :=
  if stat hostDir then none else some (VolErr.hostDirCheck hostDir)

/-- `validateVolumeCtrDir` from create_cli.go.  The Go code reads
`ctrDir[0]` unconditionally; on the empty string this indexes out of
bounds and panics, modelled by `VolRes.panics`. -/
def validateVolumeCtrDir (ctrDir : String) : VolRes :=
  match ctrDir.data with
  | [] => VolRes.panics
  | c :: _ => if c ≠ '/' then VolRes.err (VolErr.ctrDirInvalid ctrDir) else VolRes.ok

/-- The loop body of `validateVolumeOpts`: `o` is the whole option string
(used in the error messages), the three numeric arguments are the Go
counters `foundRootPropagation`, `foundRWRO`, `foundLabelChange`.
Note the Go code tests `> 1` before incrementing. -/
def volumeOptsLoop (o : String) : List String → Nat → Nat → Nat → Option VolErr
  | [], _, _, _ => none
  | opt :: rest, fRP, fRWRO, fLC =>
    if opt = "rw" ∨ opt = "ro" then
      if fRWRO > 1 then some (VolErr.optsRWRO o)
      else volumeOptsLoop o rest fRP (fRWRO + 1) fLC
    else if opt = "z" ∨ opt = "Z" then
      if fLC > 1 then some (VolErr.optsLabel o)
      else volumeOptsLoop o rest fRP fRWRO (fLC + 1)
    else if opt = "private" ∨ opt = "rprivate" ∨ opt = "shared" ∨ opt = "rshared" ∨
        opt = "slave" ∨ opt = "rslave" then
      if fRP > 1 then some (VolErr.optsPropagation o)
      else volumeOptsLoop o rest (fRP + 1) fRWRO fLC
    else some (VolErr.optUnknown o)

/-- `validateVolumeOpts` from create_cli.go: split the option string on
commas and run the counting loop with all three counters at zero. -/
def validateVolumeOpts (option : String) : Option VolErr :=
  volumeOptsLoop option (goSplit option ',') 0 0 0

/-- `parseVolumes` from create_cli.go: for each entry, `SplitN` on `:`
into at most three parts; fewer than two parts is an error; then the
host-dir, ctr-dir and (if present) option checks run in order, each
aborting the whole call on failure.  A panic in `validateVolumeCtrDir`
propagates. -/
def parseVolumes (stat : String → Bool) : List String → VolRes
  | [] => VolRes.ok
  | volume :: rest =>
    match goSplitN3 volume ':' with
    | a :: b :: tailParts =>
      match validateVolumeHostDir stat a with
      | some e => VolRes.err e
      | none =>
        match validateVolumeCtrDir b with
        | VolRes.panics => VolRes.panics
        | VolRes.err e => VolRes.err e
        | VolRes.ok =>
          match tailParts with
          | c :: _ =>
            match validateVolumeOpts c with
            | some e => VolRes.err e
            | none => parseVolumes stat rest
          | [] => parseVolumes stat rest
    | _ => VolRes.err (VolErr.format volume)

/-! ## Resource-limit validation (`verifyContainerResources`) -/

/-- `linuxMinMemory` from create_cli.go: 4MiB minimum for all memory
limits. -/
def linuxMinMemory : Int := 4194304

/-- Modelled from the spec: the `resources` field of `createConfig`
(declared in a file of this repository that is not part of the sources
here; only its use inside `verifyContainerResources` is).  Field names
and meanings follow the spec data model: byte counts and other numeric
limits as integers (0 unset, -1 on swap/swappiness unset or unlimited),
cpuset requests as strings, per-device blkio limits as string lists. -/
structure Resources where
  memory : Int
  memorySwap : Int
  memorySwappiness : Int
  memoryReservation : Int
  kernelMemory : Int
  disableOomKiller : Bool
  pidsLimit : Int
  cpuShares : Int
  cpuPeriod : Int
  cpuQuota : Int
  cpusetCpus : String
  cpusetMems : String
  blkioWeight : Int
  blkioWeightDevice : List String
  deviceReadBps : List String
  deviceWriteBps : List String
  deviceReadIOps : List String
  deviceWriteIOps : List String
deriving DecidableEq, Repr

/-- The capability report of `sysinfo.New(true)` (external collaborator):
one boolean per capability, the available cpu/mem enumerations, and the
two availability oracles.  `none` from an oracle models a non-nil Go
error from `IsCpusetCpusAvailable`/`IsCpusetMemsAvailable`. -/
structure SysInfo where
  MemoryLimit : Bool
  SwapLimit : Bool
  MemorySwappiness : Bool
  MemoryReservation : Bool
  KernelMemory : Bool
  OomKillDisable : Bool
  PidsLimit : Bool
  CPUShares : Bool
  CPUCfsPeriod : Bool
  CPUCfsQuota : Bool
  Cpuset : Bool
  BlkioWeight : Bool
  BlkioWeightDevice : Bool
  BlkioReadBpsDevice : Bool
  BlkioWriteBpsDevice : Bool
  BlkioReadIOpsDevice : Bool
  BlkioWriteIOpsDevice : Bool
  Cpus : String
  Mems : String
  isCpusetCpusAvailable : String → Option Bool
  isCpusetMemsAvailable : String → Option Bool

/-- Hard errors of `verifyContainerResources`; one constructor per
`fmt.Errorf` site, carrying the interpolated values. -/
inductive VErr where
  | memMin
  | swapOrder
  | swapRequiresMemory
  | swappinessRange (v : Int)
  | reservationMin
  | memBelowReservation
  | kernelMemMin
  | cpuPeriodRange
  | cpuQuotaMin
  | cpusetCpusInvalid (s : String)
  | cpusetCpusUnavailable (req avail : String)
  | cpusetMemsInvalid (s : String)
  | cpusetMemsUnavailable (req avail : String)
  | blkioWeightRange
deriving DecidableEq, Repr

def memoryCapWarning : String :=
  "Your kernel does not support memory limit capabilities or the cgroup is not mounted. Limitation discarded."

def swapCapWarning : String :=
  "Your kernel does not support swap limit capabilities,or the cgroup is not mounted. Memory limited without swap."

def swappinessCapWarning : String :=
  "Your kernel does not support memory swappiness capabilities, or the cgroup is not mounted. Memory swappiness discarded."

def reservationCapWarning : String :=
  "Your kernel does not support memory soft limit capabilities or the cgroup is not mounted. Limitation discarded."

def kernelMemoryCapWarning : String :=
  "Your kernel does not support kernel memory limit capabilities or the cgroup is not mounted. Limitation discarded."

def oomKillWarning : String :=
  "Your kernel does not support OomKillDisable. OomKillDisable discarded."

def pidsCapWarning : String :=
  "Your kernel does not support pids limit capabilities or the cgroup is not mounted. PIDs limit discarded."

def sharesCapWarning : String :=
  "Your kernel does not support CPU shares or the cgroup is not mounted. Shares discarded."

def periodCapWarning : String :=
  "Your kernel does not support CPU cfs period or the cgroup is not mounted. Period discarded."

def quotaCapWarning : String :=
  "Your kernel does not support CPU cfs quota or the cgroup is not mounted. Quota discarded."

def cpusetCapWarning : String :=
  "Your kernel does not support cpuset or the cgroup is not mounted. Cpuset discarded."

def blkioWeightCapWarning : String :=
  "Your kernel does not support Block I/O weight or the cgroup is not mounted. Weight discarded."

def blkioWeightDeviceCapWarning : String :=
  "Your kernel does not support Block I/O weight_device or the cgroup is not mounted. Weight-device discarded."

def readBpsCapWarning : String :=
  "Your kernel does not support BPS Block I/O read limit or the cgroup is not mounted. Block I/O BPS read limit discarded"

def writeBpsCapWarning : String :=
  "Your kernel does not support BPS Block I/O write limit or the cgroup is not mounted. Block I/O BPS write limit discarded."

def readIOpsCapWarning : String :=
  "Your kernel does not support IOPS Block read limit or the cgroup is not mounted. Block I/O IOPS read limit discarded."

def writeIOpsCapWarning : String :=
  "Your kernel does not support IOPS Block I/O write limit or the cgroup is not mounted. Block I/O IOPS write limit discarded."

/-- One if-block of `verifyContainerResources`: takes the current config,
returns the (possibly mutated) config, the warnings it appended, and the
hard error it returned, if any. -/
abbrev Check := Resources → Resources × List String × Option VErr

/-- Line 114: `0 < memory < 4MiB` is a hard error. -/
def checkMemoryMin : Check := fun r =>
  if r.memory ≠ 0 ∧ r.memory < linuxMinMemory then (r, [], some VErr.memMin)
  else (r, [], none)

/-- Line 117: memory requested without the memory-limit capability:
discard memory, force memorySwap to -1, warn. -/
def checkMemoryCap (sysInfo : SysInfo) : Check := fun r =>
  if r.memory > 0 ∧ sysInfo.MemoryLimit = false then
    ({ r with memory := 0, memorySwap := -1 }, [memoryCapWarning], none)
  else (r, [], none)

/-- Line 122: swap set (≠ -1) with memory but no swap capability:
force memorySwap to -1, warn. -/
def checkSwapCap (sysInfo : SysInfo) : Check := fun r =>
  if r.memory > 0 ∧ r.memorySwap ≠ -1 ∧ sysInfo.SwapLimit = false then
    ({ r with memorySwap := -1 }, [swapCapWarning], none)
  else (r, [], none)

/-- Line 126: positive swap smaller than memory is a hard error. -/
def checkSwapOrder : Check := fun r =>
  if r.memory > 0 ∧ r.memorySwap > 0 ∧ r.memorySwap < r.memory then
    (r, [], some VErr.swapOrder)
  else (r, [], none)

/-- Line 129: swap without memory (outside an update) is a hard error. -/
def checkSwapRequiresMemory (update : Bool) : Check := fun r =>
  if r.memory = 0 ∧ r.memorySwap > 0 ∧ update = false then
    (r, [], some VErr.swapRequiresMemory)
  else (r, [], none)

/-- Lines 132-143: swappiness set: without the capability, reset to -1
and warn; with it, range-check into [-1, 100]. -/
def checkSwappiness (sysInfo : SysInfo) : Check := fun r =>
  if r.memorySwappiness ≠ -1 then
    if sysInfo.MemorySwappiness = false then
      ({ r with memorySwappiness := -1 }, [swappinessCapWarning], none)
    else if r.memorySwappiness < -1 ∨ r.memorySwappiness > 100 then
      (r, [], some (VErr.swappinessRange r.memorySwappiness))
    else (r, [], none)
  else (r, [], none)

/-- Line 144: reservation without the capability: discard and warn. -/
def checkReservationCap (sysInfo : SysInfo) : Check := fun r =>
  if r.memoryReservation > 0 ∧ sysInfo.MemoryReservation = false then
    ({ r with memoryReservation := 0 }, [reservationCapWarning], none)
  else (r, [], none)

/-- Line 148: `0 < reservation < 4MiB` is a hard error. -/
def checkReservationMin : Check := fun r =>
  if r.memoryReservation > 0 ∧ r.memoryReservation < linuxMinMemory then
    (r, [], some VErr.reservationMin)
  else (r, [], none)

/-- Line 151: memory below reservation is a hard error. -/
def checkMemoryVsReservation : Check := fun r =>
  if r.memory > 0 ∧ r.memoryReservation > 0 ∧ r.memory < r.memoryReservation then
    (r, [], some VErr.memBelowReservation)
  else (r, [], none)

/-- Line 154: kernel memory without the capability: discard and warn. -/
def checkKernelMemoryCap (sysInfo : SysInfo) : Check := fun r =>
  if r.kernelMemory > 0 ∧ sysInfo.KernelMemory = false then
    ({ r with kernelMemory := 0 }, [kernelMemoryCapWarning], none)
  else (r, [], none)

/-- Line 158: `0 < kernelMemory < 4MiB` is a hard error. -/
def checkKernelMemoryMin : Check := fun r =>
  if r.kernelMemory > 0 ∧ r.kernelMemory < linuxMinMemory then
    (r, [], some VErr.kernelMemMin)
  else (r, [], none)

/-- Line 161: OOM-kill disable requested without the capability: reset
to false and warn (only a requested *disable* warns). -/
def checkOomKill (sysInfo : SysInfo) : Check := fun r =>
  if r.disableOomKiller = true ∧ sysInfo.OomKillDisable = false then
    ({ r with disableOomKiller := false }, [oomKillWarning], none)
  else (r, [], none)

/-- Line 168: pids limit without the capability: discard and warn. -/
def checkPids (sysInfo : SysInfo) : Check := fun r =>
  if r.pidsLimit ≠ 0 ∧ sysInfo.PidsLimit = false then
    ({ r with pidsLimit := 0 }, [pidsCapWarning], none)
  else (r, [], none)

/-- Line 173: cpu shares without the capability: discard and warn. -/
def checkShares (sysInfo : SysInfo) : Check := fun r =>
  if r.cpuShares > 0 ∧ sysInfo.CPUShares = false then
    ({ r with cpuShares := 0 }, [sharesCapWarning], none)
  else (r, [], none)

/-- Line 177: cpu period without the capability: discard and warn. -/
def checkPeriodCap (sysInfo : SysInfo) : Check := fun r =>
  if r.cpuPeriod > 0 ∧ sysInfo.CPUCfsPeriod = false then
    ({ r with cpuPeriod := 0 }, [periodCapWarning], none)
  else (r, [], none)

/-- Line 181: cpu period set but outside [1000, 1000000] is a hard
error. -/
def checkPeriodRange : Check := fun r =>
  if r.cpuPeriod ≠ 0 ∧ (r.cpuPeriod < 1000 ∨ r.cpuPeriod > 1000000) then
    (r, [], some VErr.cpuPeriodRange)
  else (r, [], none)

/-- Line 184: cpu quota without the capability: discard and warn. -/
def checkQuotaCap (sysInfo : SysInfo) : Check := fun r =>
  if r.cpuQuota > 0 ∧ sysInfo.CPUCfsQuota = false then
    ({ r with cpuQuota := 0 }, [quotaCapWarning], none)
  else (r, [], none)

/-- Line 188: `0 < cpuQuota < 1000` is a hard error. -/
def checkQuotaMin : Check := fun r =>
  if r.cpuQuota > 0 ∧ r.cpuQuota < 1000 then
    (r, [], some VErr.cpuQuotaMin)
  else (r, [], none)

/-- Line 192: cpuset requested without the capability: clear both cpuset
strings and warn. -/
def checkCpusetCap (sysInfo : SysInfo) : Check := fun r =>
  if (r.cpusetCpus ≠ "" ∨ r.cpusetMems ≠ "") ∧ sysInfo.Cpuset = false then
    ({ r with cpusetCpus := "", cpusetMems := "" }, [cpusetCapWarning], none)
  else (r, [], none)

/-- Lines 197-203: cpuset cpu availability query: a query error and an
unavailable set are two distinct hard errors. -/
def checkCpusAvailable (sysInfo : SysInfo) : Check := fun r =>
  if sysInfo.isCpusetCpusAvailable r.cpusetCpus = none then
    (r, [], some (VErr.cpusetCpusInvalid r.cpusetCpus))
  else if sysInfo.isCpusetCpusAvailable r.cpusetCpus = some false then
    (r, [], some (VErr.cpusetCpusUnavailable r.cpusetCpus sysInfo.Cpus))
  else (r, [], none)

/-- Lines 204-210: cpuset memory-node availability query. -/
def checkMemsAvailable (sysInfo : SysInfo) : Check := fun r =>
  if sysInfo.isCpusetMemsAvailable r.cpusetMems = none then
    (r, [], some (VErr.cpusetMemsInvalid r.cpusetMems))
  else if sysInfo.isCpusetMemsAvailable r.cpusetMems = some false then
    (r, [], some (VErr.cpusetMemsUnavailable r.cpusetMems sysInfo.Mems))
  else (r, [], none)

/-- Line 213: blkio weight without the capability: discard and warn. -/
def checkBlkioWeightCap (sysInfo : SysInfo) : Check := fun r =>
  if r.blkioWeight > 0 ∧ sysInfo.BlkioWeight = false then
    ({ r with blkioWeight := 0 }, [blkioWeightCapWarning], none)
  else (r, [], none)

/-- Line 217: blkio weight outside [10, 1000] is a hard error. -/
def checkBlkioWeightRange : Check := fun r =>
  if r.blkioWeight > 0 ∧ (r.blkioWeight < 10 ∨ r.blkioWeight > 1000) then
    (r, [], some VErr.blkioWeightRange)
  else (r, [], none)

/-- Line 220: weight-device list without the capability: clear and warn. -/
def checkBlkioWeightDevice (sysInfo : SysInfo) : Check := fun r =>
  if r.blkioWeightDevice.length > 0 ∧ sysInfo.BlkioWeightDevice = false then
    ({ r with blkioWeightDevice := [] }, [blkioWeightDeviceCapWarning], none)
  else (r, [], none)

/-- Line 224: read-bps list without the capability: clear and warn. -/
def checkReadBps (sysInfo : SysInfo) : Check := fun r =>
  if r.deviceReadBps.length > 0 ∧ sysInfo.BlkioReadBpsDevice = false then
    ({ r with deviceReadBps := [] }, [readBpsCapWarning], none)
  else (r, [], none)

/-- Line 228: write-bps list without the capability: clear and warn. -/
def checkWriteBps (sysInfo : SysInfo) : Check := fun r =>
  if r.deviceWriteBps.length > 0 ∧ sysInfo.BlkioWriteBpsDevice = false then
    ({ r with deviceWriteBps := [] }, [writeBpsCapWarning], none)
  else (r, [], none)

/-- Line 232: read-iops list without the capability: clear and warn. -/
def checkReadIOps (sysInfo : SysInfo) : Check := fun r =>
  if r.deviceReadIOps.length > 0 ∧ sysInfo.BlkioReadIOpsDevice = false then
    ({ r with deviceReadIOps := [] }, [readIOpsCapWarning], none)
  else (r, [], none)

/-- Line 236: write-iops list without the capability: clear and warn. -/
def checkWriteIOps (sysInfo : SysInfo) : Check := fun r =>
  if r.deviceWriteIOps.length > 0 ∧ sysInfo.BlkioWriteIOpsDevice = false then
    ({ r with deviceWriteIOps := [] }, [writeIOpsCapWarning], none)
  else (r, [], none)

/-- The if-blocks of `verifyContainerResources` in source order
(lines 114-239). -/
def checks (update : Bool) (sysInfo : SysInfo) : List Check :=
  [checkMemoryMin, checkMemoryCap sysInfo, checkSwapCap sysInfo, checkSwapOrder,
   checkSwapRequiresMemory update, checkSwappiness sysInfo, checkReservationCap sysInfo,
   checkReservationMin, checkMemoryVsReservation, checkKernelMemoryCap sysInfo,
   checkKernelMemoryMin, checkOomKill sysInfo, checkPids sysInfo, checkShares sysInfo,
   checkPeriodCap sysInfo, checkPeriodRange, checkQuotaCap sysInfo, checkQuotaMin,
   checkCpusetCap sysInfo, checkCpusAvailable sysInfo, checkMemsAvailable sysInfo,
   checkBlkioWeightCap sysInfo, checkBlkioWeightRange, checkBlkioWeightDevice sysInfo,
   checkReadBps sysInfo, checkWriteBps sysInfo, checkReadIOps sysInfo,
   checkWriteIOps sysInfo]

/-- Run a list of checks in order, threading the config, accumulating
warnings, and returning at the first hard error (the Go early `return`).
The warnings accumulated before the error are part of the result, as in
the Go code, which returns `(warnings, err)`. -/
def runChecks : List Check → Resources → Resources × List String × Option VErr
  | [], r => (r, [], none)
  | c :: cs, r =>
    match c r with
    | (r₁, w, some e) => (r₁, w, some e)
    | (r₁, w, none) =>
      match runChecks cs r₁ with
      | (r₂, w₂, e₂) => (r₂, w ++ w₂, e₂)

/-- `verifyContainerResources` from create_cli.go: the check cascade on
the resource limits, given the update flag and the capability report. -/
def verifyContainerResources (r : Resources) (update : Bool) (sysInfo : SysInfo) :
    Resources × List String × Option VErr :=
  runChecks (checks update sysInfo) r

/-- A request with every limit at its unset default (spec data model:
0 everywhere, -1 for swappiness, empty strings and lists). -/
def defaultResources : Resources :=
  { memory := 0, memorySwap := 0, memorySwappiness := -1, memoryReservation := 0,
    kernelMemory := 0, disableOomKiller := false, pidsLimit := 0, cpuShares := 0,
    cpuPeriod := 0, cpuQuota := 0, cpusetCpus := "", cpusetMems := "",
    blkioWeight := 0, blkioWeightDevice := [], deviceReadBps := [], deviceWriteBps := [],
    deviceReadIOps := [], deviceWriteIOps := [] }

/-- A capability report with every capability absent and both
availability oracles succeeding (used as a concrete witness report). -/
def siAllFalse : SysInfo :=
  { MemoryLimit := false, SwapLimit := false, MemorySwappiness := false,
    MemoryReservation := false, KernelMemory := false, OomKillDisable := false,
    PidsLimit := false, CPUShares := false, CPUCfsPeriod := false, CPUCfsQuota := false,
    Cpuset := false, BlkioWeight := false, BlkioWeightDevice := false,
    BlkioReadBpsDevice := false, BlkioWriteBpsDevice := false,
    BlkioReadIOpsDevice := false, BlkioWriteIOpsDevice := false,
    Cpus := "", Mems := "",
    isCpusetCpusAvailable := fun _ => some true,
    isCpusetMemsAvailable := fun _ => some true }

/-- A capability report with every capability present and both
availability oracles succeeding (used as a concrete witness report). -/
def siAllTrue : SysInfo :=
  { MemoryLimit := true, SwapLimit := true, MemorySwappiness := true,
    MemoryReservation := true, KernelMemory := true, OomKillDisable := true,
    PidsLimit := true, CPUShares := true, CPUCfsPeriod := true, CPUCfsQuota := true,
    Cpuset := true, BlkioWeight := true, BlkioWeightDevice := true,
    BlkioReadBpsDevice := true, BlkioWriteBpsDevice := true,
    BlkioReadIOpsDevice := true, BlkioWriteIOpsDevice := true,
    Cpus := "", Mems := "",
    isCpusetCpusAvailable := fun _ => some true,
    isCpusetMemsAvailable := fun _ => some true }

end Kpod

namespace Kpod

/-! ## Generic lemmas about `runChecks` -/

/-- Stepping lemma: a check that succeeds prepends its warnings and the
run continues from its output state. -/
theorem runChecks_cons_of_ok {c : Check} {cs : List Check} {r r₁ : Resources}
    {w : List String} (h : c r = (r₁, w, none)) :
    runChecks (c :: cs) r =
      ((runChecks cs r₁).1, w ++ (runChecks cs r₁).2.1, (runChecks cs r₁).2.2) := by
  rcases hr : runChecks cs r₁ with ⟨a, b, e⟩
  simp [runChecks, h, hr]

/-- Stepping lemma: a check that fails ends the run with its own output. -/
theorem runChecks_cons_of_err {c : Check} {cs : List Check} {r r₁ : Resources}
    {w : List String} {e : VErr} (h : c r = (r₁, w, some e)) :
    runChecks (c :: cs) r = (r₁, w, some e) := by
  simp [runChecks, h]

/-- If every check of the list is a no-op at `r`, the whole run is a
no-op at `r`. -/
theorem runChecks_noop {cs : List Check} {r : Resources}
    (h : ∀ c ∈ cs, c r = (r, [], none)) : runChecks cs r = (r, [], none) := by
  induction cs with
  | nil => rfl
  | cons c cs ih =>
    rw [runChecks_cons_of_ok (h c (by simp)), ih (fun d hd => h d (by simp [hd]))]
    simp

/-- Appending check lists: if the first list runs without error, the
combined run continues from its output state, prepending its warnings. -/
theorem runChecks_append {cs₁ cs₂ : List Check} {r r₁ : Resources} {w₁ : List String}
    (h : runChecks cs₁ r = (r₁, w₁, none)) :
    runChecks (cs₁ ++ cs₂) r =
      ((runChecks cs₂ r₁).1, w₁ ++ (runChecks cs₂ r₁).2.1, (runChecks cs₂ r₁).2.2) := by
  induction cs₁ generalizing r w₁ with
  | nil =>
    simp only [runChecks] at h
    obtain ⟨rfl, rfl, -⟩ : r = r₁ ∧ [] = w₁ ∧ (none : Option VErr) = none := by
      simpa [Prod.ext_iff] using h
    simp
  | cons c cs ih =>
    rcases hc : c r with ⟨ra, wa, ea⟩
    cases ea with
    | some e => rw [runChecks_cons_of_err hc] at h; simp at h
    | none =>
      rw [runChecks_cons_of_ok hc] at h
      rcases hr : runChecks cs ra with ⟨rb, wb, eb⟩
      rw [hr] at h
      obtain ⟨rfl, rfl, rfl⟩ : rb = r₁ ∧ wa ++ wb = w₁ ∧ eb = (none : Option VErr) := by
        simpa [Prod.ext_iff] using h
      rw [List.cons_append, runChecks_cons_of_ok hc, ih hr]
      simp

/-- A run that errors is already decided by a prefix: there is an `n`
such that the first `n` checks pass and running just the first `n + 1`
checks produces the very same output state, warning list and error. -/
theorem runChecks_err_take {cs : List Check} {r r' : Resources} {ws : List String}
    {e : VErr} (h : runChecks cs r = (r', ws, some e)) :
    ∃ n, runChecks (cs.take (n + 1)) r = (r', ws, some e) ∧
      (runChecks (cs.take n) r).2.2 = none := by
  induction cs generalizing r ws with
  | nil => simp [runChecks] at h
  | cons c cs ih =>
    rcases hc : c r with ⟨ra, wa, ea⟩
    cases ea with
    | some e₁ =>
      rw [runChecks_cons_of_err hc] at h
      refine ⟨0, ?_, by simp [runChecks]⟩
      rw [List.take_succ_cons, List.take_zero]
      rw [runChecks_cons_of_err hc]
      exact h
    | none =>
      rw [runChecks_cons_of_ok hc] at h
      rcases hr : runChecks cs ra with ⟨rb, wb, eb⟩
      rw [hr] at h
      obtain ⟨rfl, rfl, he⟩ : rb = r' ∧ wa ++ wb = ws ∧ eb = some e := by
        simpa [Prod.ext_iff] using h
      subst he
      obtain ⟨n, h1, h2⟩ := ih hr
      refine ⟨n + 1, ?_, ?_⟩
      · rw [List.take_succ_cons, runChecks_cons_of_ok hc, h1]
      · rw [List.take_succ_cons, runChecks_cons_of_ok hc, h2]

/-- A predicate preserved by every check of a list is preserved by the
whole run (whether it errors or not). -/
theorem runChecks_pres {P : Resources → Prop} {cs : List Check} {r : Resources}
    (h : ∀ c ∈ cs, ∀ s, P s → P ((c s).1)) (hP : P r) : P ((runChecks cs r).1) := by
  induction cs generalizing r with
  | nil => simpa [runChecks]
  | cons c cs ih =>
    rcases hc : c r with ⟨ra, wa, ea⟩
    have hPa : P ra := by
      have := h c (by simp) r hP
      rwa [hc] at this
    cases ea with
    | some e => rw [runChecks_cons_of_err hc]; exact hPa
    | none =>
      rw [runChecks_cons_of_ok hc]
      exact ih (fun d hd => h d (by simp [hd])) hPa

/-- Every warning of a run satisfies `Q`, provided each check only emits
`Q`-warnings from states satisfying the invariant `P`, and `P` is
preserved by every check. -/
theorem runChecks_warn_inv {P : Resources → Prop} {Q : String → Prop} {cs : List Check}
    {r : Resources}
    (hpres : ∀ c ∈ cs, ∀ s, P s → P ((c s).1))
    (hwarn : ∀ c ∈ cs, ∀ s w, P s → w ∈ (c s).2.1 → Q w)
    (hP : P r) : ∀ w ∈ (runChecks cs r).2.1, Q w := by
  induction cs generalizing r with
  | nil => simp [runChecks]
  | cons c cs ih =>
    intro w hw
    rcases hc : c r with ⟨ra, wa, ea⟩
    have hPa : P ra := by
      have := hpres c (by simp) r hP
      rwa [hc] at this
    cases ea with
    | some e =>
      rw [runChecks_cons_of_err hc] at hw
      exact hwarn c (by simp) r w hP (by rw [hc]; exact hw)
    | none =>
      rw [runChecks_cons_of_ok hc] at hw
      rcases List.mem_append.1 hw with hwa | hwb
      · exact hwarn c (by simp) r w hP (by rw [hc]; exact hwa)
      · exact ih (fun d hd => hpres d (by simp [hd])) (fun d hd => hwarn d (by simp [hd])) hPa w hwb

/-- After a successful run, the final state is a fixed point of every
check of the list, provided each check's success output is a fixed point
of itself and fixed points of earlier checks are preserved by later
checks (the `Pairwise` hypothesis). -/
theorem runChecks_post_all {cs : List Check} {r r' : Resources} {ws : List String}
    (hpost : ∀ c ∈ cs, ∀ s s₁ w, c s = (s₁, w, none) → c s₁ = (s₁, [], none))
    (hpres : cs.Pairwise (fun c d => ∀ s, c s = (s, [], none) → c ((d s).1) = ((d s).1, [], none)))
    (h : runChecks cs r = (r', ws, none)) :
    ∀ c ∈ cs, c r' = (r', [], none) := by
  induction cs generalizing r ws with
  | nil => simp
  | cons c cs ih =>
    rcases hc : c r with ⟨ra, wa, ea⟩
    cases ea with
    | some e => rw [runChecks_cons_of_err hc] at h; simp at h
    | none =>
      rw [runChecks_cons_of_ok hc] at h
      rcases hr : runChecks cs ra with ⟨rb, wb, eb⟩
      rw [hr] at h
      obtain ⟨rfl, -, he⟩ : rb = r' ∧ wa ++ wb = ws ∧ eb = (none : Option VErr) := by
        simpa [Prod.ext_iff] using h
      subst he
      rcases List.pairwise_cons.1 hpres with ⟨hhead, htail⟩
      intro d hd
      rcases List.mem_cons.1 hd with rfl | hd'
      · -- the head check: its output is its own fixed point, preserved by the tail run
        have hfix : d ra = (ra, [], none) := hpost d (by simp) r ra wa hc
        have : ∀ x ∈ cs, ∀ s, d s = (s, [], none) → d ((x s).1) = ((x s).1, [], none) := hhead
        -- run the tail preserving "is a fixed point of d"
        have hpres' : ∀ x ∈ cs, ∀ s, (d s = (s, [], none)) → d ((x s).1) = ((x s).1, [], none) := this
        have := runChecks_pres (P := fun s => d s = (s, [], none)) hpres' hfix
        rwa [hr] at this
      · exact ih (fun x hx => hpost x (by simp [hx])) htail hr d hd'

end Kpod

namespace Kpod

/-- Fixed-point characterization of `checkMemoryMin`. -/
theorem checkMemoryMin_fix {s : Resources} :
    checkMemoryMin s = (s, [], none) ↔ ¬(s.memory ≠ 0 ∧ s.memory < linuxMinMemory) := by
  unfold checkMemoryMin; split_ifs with h <;> simp [h]

/-- Fixed-point characterization of `checkMemoryCap`. -/
theorem checkMemoryCap_fix {si : SysInfo} {s : Resources} :
    checkMemoryCap si s = (s, [], none) ↔ ¬(s.memory > 0 ∧ si.MemoryLimit = false) := by
  unfold checkMemoryCap; split_ifs with h <;> simp [h]

/-- Fixed-point characterization of `checkSwapCap`. -/
theorem checkSwapCap_fix {si : SysInfo} {s : Resources} :
    checkSwapCap si s = (s, [], none) ↔
      ¬(s.memory > 0 ∧ s.memorySwap ≠ -1 ∧ si.SwapLimit = false) := by
  unfold checkSwapCap; split_ifs with h <;> simp [h]

/-- Fixed-point characterization of `checkSwapOrder`. -/
theorem checkSwapOrder_fix {s : Resources} :
    checkSwapOrder s = (s, [], none) ↔
      ¬(s.memory > 0 ∧ s.memorySwap > 0 ∧ s.memorySwap < s.memory) := by
  unfold checkSwapOrder; split_ifs with h <;> simp [h]

/-- Fixed-point characterization of `checkSwapRequiresMemory`. -/
theorem checkSwapRequiresMemory_fix {u : Bool} {s : Resources} :
    checkSwapRequiresMemory u s = (s, [], none) ↔
      ¬(s.memory = 0 ∧ s.memorySwap > 0 ∧ u = false) := by
  unfold checkSwapRequiresMemory; split_ifs with h <;> simp [h]

/-- Fixed-point characterization of `checkSwappiness`. -/
theorem checkSwappiness_fix {si : SysInfo} {s : Resources} :
    checkSwappiness si s = (s, [], none) ↔
      (s.memorySwappiness ≠ -1 →
        si.MemorySwappiness = true ∧ ¬(s.memorySwappiness < -1 ∨ s.memorySwappiness > 100)) := by
  unfold checkSwappiness; split_ifs with h1 h2 h3 <;> simp_all

/-- Fixed-point characterization of `checkReservationCap`. -/
theorem checkReservationCap_fix {si : SysInfo} {s : Resources} :
    checkReservationCap si s = (s, [], none) ↔
      ¬(s.memoryReservation > 0 ∧ si.MemoryReservation = false) := by
  unfold checkReservationCap; split_ifs with h <;> simp [h]

/-- Fixed-point characterization of `checkReservationMin`. -/
theorem checkReservationMin_fix {s : Resources} :
    checkReservationMin s = (s, [], none) ↔
      ¬(s.memoryReservation > 0 ∧ s.memoryReservation < linuxMinMemory) := by
  unfold checkReservationMin; split_ifs with h <;> simp [h]

/-- Fixed-point characterization of `checkMemoryVsReservation`. -/
theorem checkMemoryVsReservation_fix {s : Resources} :
    checkMemoryVsReservation s = (s, [], none) ↔
      ¬(s.memory > 0 ∧ s.memoryReservation > 0 ∧ s.memory < s.memoryReservation) := by
  unfold checkMemoryVsReservation; split_ifs with h <;> simp [h]

/-- Fixed-point characterization of `checkKernelMemoryCap`. -/
theorem checkKernelMemoryCap_fix {si : SysInfo} {s : Resources} :
    checkKernelMemoryCap si s = (s, [], none) ↔
      ¬(s.kernelMemory > 0 ∧ si.KernelMemory = false) := by
  unfold checkKernelMemoryCap; split_ifs with h <;> simp [h]

/-- Fixed-point characterization of `checkKernelMemoryMin`. -/
theorem checkKernelMemoryMin_fix {s : Resources} :
    checkKernelMemoryMin s = (s, [], none) ↔
      ¬(s.kernelMemory > 0 ∧ s.kernelMemory < linuxMinMemory) := by
  unfold checkKernelMemoryMin; split_ifs with h <;> simp [h]

/-- Fixed-point characterization of `checkOomKill`. -/
theorem checkOomKill_fix {si : SysInfo} {s : Resources} :
    checkOomKill si s = (s, [], none) ↔
      ¬(s.disableOomKiller = true ∧ si.OomKillDisable = false) := by
  unfold checkOomKill; split_ifs with h <;> simp [h]

/-- Fixed-point characterization of `checkPids`. -/
theorem checkPids_fix {si : SysInfo} {s : Resources} :
    checkPids si s = (s, [], none) ↔ ¬(s.pidsLimit ≠ 0 ∧ si.PidsLimit = false) := by
  unfold checkPids; split_ifs with h <;> simp [h]

/-- Fixed-point characterization of `checkShares`. -/
theorem checkShares_fix {si : SysInfo} {s : Resources} :
    checkShares si s = (s, [], none) ↔ ¬(s.cpuShares > 0 ∧ si.CPUShares = false) := by
  unfold checkShares; split_ifs with h <;> simp [h]

/-- Fixed-point characterization of `checkPeriodCap`. -/
theorem checkPeriodCap_fix {si : SysInfo} {s : Resources} :
    checkPeriodCap si s = (s, [], none) ↔ ¬(s.cpuPeriod > 0 ∧ si.CPUCfsPeriod = false) := by
  unfold checkPeriodCap; split_ifs with h <;> simp [h]

/-- Fixed-point characterization of `checkPeriodRange`. -/
theorem checkPeriodRange_fix {s : Resources} :
    checkPeriodRange s = (s, [], none) ↔
      ¬(s.cpuPeriod ≠ 0 ∧ (s.cpuPeriod < 1000 ∨ s.cpuPeriod > 1000000)) := by
  unfold checkPeriodRange; split_ifs with h <;> simp [h]

/-- Fixed-point characterization of `checkQuotaCap`. -/
theorem checkQuotaCap_fix {si : SysInfo} {s : Resources} :
    checkQuotaCap si s = (s, [], none) ↔ ¬(s.cpuQuota > 0 ∧ si.CPUCfsQuota = false) := by
  unfold checkQuotaCap; split_ifs with h <;> simp [h]

/-- Fixed-point characterization of `checkQuotaMin`. -/
theorem checkQuotaMin_fix {s : Resources} :
    checkQuotaMin s = (s, [], none) ↔ ¬(s.cpuQuota > 0 ∧ s.cpuQuota < 1000) := by
  unfold checkQuotaMin; split_ifs with h <;> simp [h]

/-- Fixed-point characterization of `checkCpusetCap`. -/
theorem checkCpusetCap_fix {si : SysInfo} {s : Resources} :
    checkCpusetCap si s = (s, [], none) ↔
      ¬((s.cpusetCpus ≠ "" ∨ s.cpusetMems ≠ "") ∧ si.Cpuset = false) := by
  unfold checkCpusetCap; split_ifs with h <;> simp [h]

/-- Fixed-point characterization of `checkCpusAvailable`. -/
theorem checkCpusAvailable_fix {si : SysInfo} {s : Resources} :
    checkCpusAvailable si s = (s, [], none) ↔
      (¬(si.isCpusetCpusAvailable s.cpusetCpus = none) ∧
        ¬(si.isCpusetCpusAvailable s.cpusetCpus = some false)) := by
  unfold checkCpusAvailable; split_ifs with h1 h2 <;> simp_all

/-- Fixed-point characterization of `checkMemsAvailable`. -/
theorem checkMemsAvailable_fix {si : SysInfo} {s : Resources} :
    checkMemsAvailable si s = (s, [], none) ↔
      (¬(si.isCpusetMemsAvailable s.cpusetMems = none) ∧
        ¬(si.isCpusetMemsAvailable s.cpusetMems = some false)) := by
  unfold checkMemsAvailable; split_ifs with h1 h2 <;> simp_all

/-- Fixed-point characterization of `checkBlkioWeightCap`. -/
theorem checkBlkioWeightCap_fix {si : SysInfo} {s : Resources} :
    checkBlkioWeightCap si s = (s, [], none) ↔
      ¬(s.blkioWeight > 0 ∧ si.BlkioWeight = false) := by
  unfold checkBlkioWeightCap; split_ifs with h <;> simp [h]

/-- Fixed-point characterization of `checkBlkioWeightRange`. -/
theorem checkBlkioWeightRange_fix {s : Resources} :
    checkBlkioWeightRange s = (s, [], none) ↔
      ¬(s.blkioWeight > 0 ∧ (s.blkioWeight < 10 ∨ s.blkioWeight > 1000)) := by
  unfold checkBlkioWeightRange; split_ifs with h <;> simp [h]

/-- Fixed-point characterization of `checkBlkioWeightDevice`. -/
theorem checkBlkioWeightDevice_fix {si : SysInfo} {s : Resources} :
    checkBlkioWeightDevice si s = (s, [], none) ↔
      ¬(s.blkioWeightDevice.length > 0 ∧ si.BlkioWeightDevice = false) := by
  unfold checkBlkioWeightDevice; split_ifs with h <;> simp [h]

/-- Fixed-point characterization of `checkReadBps`. -/
theorem checkReadBps_fix {si : SysInfo} {s : Resources} :
    checkReadBps si s = (s, [], none) ↔
      ¬(s.deviceReadBps.length > 0 ∧ si.BlkioReadBpsDevice = false) := by
  unfold checkReadBps; split_ifs with h <;> simp [h]

/-- Fixed-point characterization of `checkWriteBps`. -/
theorem checkWriteBps_fix {si : SysInfo} {s : Resources} :
    checkWriteBps si s = (s, [], none) ↔
      ¬(s.deviceWriteBps.length > 0 ∧ si.BlkioWriteBpsDevice = false) := by
  unfold checkWriteBps; split_ifs with h <;> simp [h]

/-- Fixed-point characterization of `checkReadIOps`. -/
theorem checkReadIOps_fix {si : SysInfo} {s : Resources} :
    checkReadIOps si s = (s, [], none) ↔
      ¬(s.deviceReadIOps.length > 0 ∧ si.BlkioReadIOpsDevice = false) := by
  unfold checkReadIOps; split_ifs with h <;> simp [h]

/-- Fixed-point characterization of `checkWriteIOps`. -/
theorem checkWriteIOps_fix {si : SysInfo} {s : Resources} :
    checkWriteIOps si s = (s, [], none) ↔
      ¬(s.deviceWriteIOps.length > 0 ∧ si.BlkioWriteIOpsDevice = false) := by
  unfold checkWriteIOps; split_ifs with h <;> simp [h]

end Kpod

namespace Kpod

/-- Every check of the cascade is locally idempotent: if it succeeds
from `s` with output `s₁`, it is a no-op at `s₁`. -/
theorem checks_idem_all (u : Bool) (si : SysInfo) :
    ∀ c ∈ checks u si, ∀ s s₁ w, c s = (s₁, w, none) → c s₁ = (s₁, [], none) := by
  intro c hc
  simp only [checks, List.mem_cons, List.not_mem_nil, or_false] at hc
  rcases hc with rfl|rfl|rfl|rfl|rfl|rfl|rfl|rfl|rfl|rfl|rfl|rfl|rfl|rfl|rfl|rfl|rfl|rfl|rfl|rfl|rfl|rfl|rfl|rfl|rfl|rfl|rfl|rfl
  all_goals intro s s₁ w h
  all_goals simp only [checkMemoryMin, checkMemoryCap, checkSwapCap, checkSwapOrder,
    checkSwapRequiresMemory, checkSwappiness, checkReservationCap, checkReservationMin,
    checkMemoryVsReservation, checkKernelMemoryCap, checkKernelMemoryMin, checkOomKill,
    checkPids, checkShares, checkPeriodCap, checkPeriodRange, checkQuotaCap, checkQuotaMin,
    checkCpusetCap, checkCpusAvailable, checkMemsAvailable, checkBlkioWeightCap,
    checkBlkioWeightRange, checkBlkioWeightDevice, checkReadBps, checkWriteBps,
    checkReadIOps, checkWriteIOps] at h ⊢
  all_goals split_ifs at h <;> simp at h <;> obtain ⟨rfl, rfl⟩ := h <;> split_ifs <;> simp_all

end Kpod

namespace Kpod

set_option maxHeartbeats 4000000 in
/-- Fixed points of a check are preserved by every later check of the
cascade: if `c` comes before `d` in `checks` and `s` is a no-op state
for `c`, then `d`'s output on `s` is still a no-op state for `c`. -/
theorem checks_pairwise_fix (u : Bool) (si : SysInfo) :
    (checks u si).Pairwise
      (fun c d => ∀ s, c s = (s, [], none) → c ((d s).1) = ((d s).1, [], none)) := by
  simp only [checks]
  repeat' constructor
  all_goals intro d hd s hfix
  all_goals simp only [List.mem_cons, List.not_mem_nil, or_false] at hd
  all_goals repeat' (first | (rcases hd with rfl | hd) | subst hd)
  all_goals simp only [checkMemoryMin_fix, checkMemoryCap_fix, checkSwapCap_fix,
    checkSwapOrder_fix, checkSwapRequiresMemory_fix, checkSwappiness_fix,
    checkReservationCap_fix, checkReservationMin_fix, checkMemoryVsReservation_fix,
    checkKernelMemoryCap_fix, checkKernelMemoryMin_fix, checkOomKill_fix, checkPids_fix,
    checkShares_fix, checkPeriodCap_fix, checkPeriodRange_fix, checkQuotaCap_fix,
    checkQuotaMin_fix, checkCpusetCap_fix, checkCpusAvailable_fix, checkMemsAvailable_fix,
    checkBlkioWeightCap_fix, checkBlkioWeightRange_fix, checkBlkioWeightDevice_fix,
    checkReadBps_fix, checkWriteBps_fix, checkReadIOps_fix, checkWriteIOps_fix] at hfix ⊢
  all_goals simp only [checkMemoryMin, checkMemoryCap, checkSwapCap, checkSwapOrder,
    checkSwapRequiresMemory, checkSwappiness, checkReservationCap, checkReservationMin,
    checkMemoryVsReservation, checkKernelMemoryCap, checkKernelMemoryMin, checkOomKill,
    checkPids, checkShares, checkPeriodCap, checkPeriodRange, checkQuotaCap, checkQuotaMin,
    checkCpusetCap, checkCpusAvailable, checkMemsAvailable, checkBlkioWeightCap,
    checkBlkioWeightRange, checkBlkioWeightDevice, checkReadBps, checkWriteBps,
    checkReadIOps, checkWriteIOps]
  all_goals split_ifs <;>
    first
    | exact hfix
    | (dsimp only; exact hfix)
    | (dsimp only; simp_all)

end Kpod

namespace Kpod

/-- On a request whose fields are all unset (and whose cpuset strings the
availability oracles accept), every check of the cascade is a no-op. -/
theorem checks_noop_of_unset (u : Bool) (si : SysInfo) (r : Resources)
    (h1 : r.memory = 0) (h2 : r.memorySwap = 0 ∨ r.memorySwap = -1)
    (h3 : r.memorySwappiness = -1) (h4 : r.memoryReservation = 0)
    (h5 : r.kernelMemory = 0) (h6 : r.disableOomKiller = false)
    (h7 : r.pidsLimit = 0) (h8 : r.cpuShares = 0) (h9 : r.cpuPeriod = 0)
    (h10 : r.cpuQuota = 0) (h11 : r.cpusetCpus = "") (h12 : r.cpusetMems = "")
    (h13 : r.blkioWeight = 0) (h14 : r.blkioWeightDevice = [])
    (h15 : r.deviceReadBps = []) (h16 : r.deviceWriteBps = [])
    (h17 : r.deviceReadIOps = []) (h18 : r.deviceWriteIOps = [])
    (hca : si.isCpusetCpusAvailable "" = some true)
    (hma : si.isCpusetMemsAvailable "" = some true) :
    ∀ c ∈ checks u si, c r = (r, [], none) := by
  intro c hc
  simp only [checks, List.mem_cons, List.not_mem_nil, or_false] at hc
  rcases h2 with h2 | h2
  all_goals
    rcases hc with rfl|rfl|rfl|rfl|rfl|rfl|rfl|rfl|rfl|rfl|rfl|rfl|rfl|rfl|rfl|rfl|rfl|rfl|rfl|rfl|rfl|rfl|rfl|rfl|rfl|rfl|rfl|rfl
  all_goals simp only [checkMemoryMin_fix, checkMemoryCap_fix, checkSwapCap_fix,
    checkSwapOrder_fix, checkSwapRequiresMemory_fix, checkSwappiness_fix,
    checkReservationCap_fix, checkReservationMin_fix, checkMemoryVsReservation_fix,
    checkKernelMemoryCap_fix, checkKernelMemoryMin_fix, checkOomKill_fix, checkPids_fix,
    checkShares_fix, checkPeriodCap_fix, checkPeriodRange_fix, checkQuotaCap_fix,
    checkQuotaMin_fix, checkCpusetCap_fix, checkCpusAvailable_fix, checkMemsAvailable_fix,
    checkBlkioWeightCap_fix, checkBlkioWeightRange_fix, checkBlkioWeightDevice_fix,
    checkReadBps_fix, checkWriteBps_fix, checkReadIOps_fix, checkWriteIOps_fix]
  all_goals simp_all

end Kpod

namespace Kpod

/-- No check of the cascade ever sets `disableOomKiller` to true: the
false value is invariant. -/
theorem checks_dok_false_pres (u : Bool) (si : SysInfo) :
    ∀ c ∈ checks u si, ∀ s : Resources,
      s.disableOomKiller = false → ((c s).1).disableOomKiller = false := by
  intro c hc
  simp only [checks, List.mem_cons, List.not_mem_nil, or_false] at hc
  rcases hc with rfl|rfl|rfl|rfl|rfl|rfl|rfl|rfl|rfl|rfl|rfl|rfl|rfl|rfl|rfl|rfl|rfl|rfl|rfl|rfl|rfl|rfl|rfl|rfl|rfl|rfl|rfl|rfl
  all_goals intro s hs
  all_goals simp only [checkMemoryMin, checkMemoryCap, checkSwapCap, checkSwapOrder,
    checkSwapRequiresMemory, checkSwappiness, checkReservationCap, checkReservationMin,
    checkMemoryVsReservation, checkKernelMemoryCap, checkKernelMemoryMin, checkOomKill,
    checkPids, checkShares, checkPeriodCap, checkPeriodRange, checkQuotaCap, checkQuotaMin,
    checkCpusetCap, checkCpusAvailable, checkMemsAvailable, checkBlkioWeightCap,
    checkBlkioWeightRange, checkBlkioWeightDevice, checkReadBps, checkWriteBps,
    checkReadIOps, checkWriteIOps]
  all_goals split_ifs <;> simp_all

/-- While `disableOomKiller` is false, no check of the cascade emits the
OOM-kill warning. -/
theorem checks_warn_ne_oom (u : Bool) (si : SysInfo) :
    ∀ c ∈ checks u si, ∀ (s : Resources) (w : String),
      s.disableOomKiller = false → w ∈ (c s).2.1 → w ≠ oomKillWarning := by
  intro c hc
  simp only [checks, List.mem_cons, List.not_mem_nil, or_false] at hc
  rcases hc with rfl|rfl|rfl|rfl|rfl|rfl|rfl|rfl|rfl|rfl|rfl|rfl|rfl|rfl|rfl|rfl|rfl|rfl|rfl|rfl|rfl|rfl|rfl|rfl|rfl|rfl|rfl|rfl
  all_goals intro s w hs hw
  all_goals simp only [checkMemoryMin, checkMemoryCap, checkSwapCap, checkSwapOrder,
    checkSwapRequiresMemory, checkSwappiness, checkReservationCap, checkReservationMin,
    checkMemoryVsReservation, checkKernelMemoryCap, checkKernelMemoryMin, checkOomKill,
    checkPids, checkShares, checkPeriodCap, checkPeriodRange, checkQuotaCap, checkQuotaMin,
    checkCpusetCap, checkCpusAvailable, checkMemsAvailable, checkBlkioWeightCap,
    checkBlkioWeightRange, checkBlkioWeightDevice, checkReadBps, checkWriteBps,
    checkReadIOps, checkWriteIOps] at hw
  all_goals split_ifs at hw <;> simp_all <;> decide

/-- The eleven checks before the OOM-kill check do not touch
`disableOomKiller` at all. -/
theorem checks_take11_dok (u : Bool) (si : SysInfo) :
    ∀ c ∈ (checks u si).take 11, ∀ s : Resources,
      ((c s).1).disableOomKiller = s.disableOomKiller := by
  intro c hc
  rw [show (checks u si).take 11 =
    [checkMemoryMin, checkMemoryCap si, checkSwapCap si, checkSwapOrder,
     checkSwapRequiresMemory u, checkSwappiness si, checkReservationCap si,
     checkReservationMin, checkMemoryVsReservation, checkKernelMemoryCap si,
     checkKernelMemoryMin] from rfl] at hc
  simp only [List.mem_cons, List.not_mem_nil, or_false] at hc
  rcases hc with rfl|rfl|rfl|rfl|rfl|rfl|rfl|rfl|rfl|rfl|rfl
  all_goals intro s
  all_goals simp only [checkMemoryMin, checkMemoryCap, checkSwapCap, checkSwapOrder,
    checkSwapRequiresMemory, checkSwappiness, checkReservationCap, checkReservationMin,
    checkMemoryVsReservation, checkKernelMemoryCap, checkKernelMemoryMin]
  all_goals split_ifs <;> rfl

end Kpod

namespace Kpod

/-! ## Claim theorems -/

/-- Claim C1.  The claim says two options from the same mutually
exclusive group make `validateVolumeOpts` (hence `parseVolumes`) fail.
The code tests each counter with `> 1` *before* incrementing it, so the
second same-group option is accepted and only a third one errors:
`"rw,ro"` validates fine, the full spec `"/tmp:/data:rw,ro"` passes
`parseVolumes`, and only `"rw,ro,ro"` is rejected.  This contradicts the
code's own error message ("can only specify 1 'rw' or 'ro' option"):
the code, not the claim, is wrong. -/
theorem C1_two_same_group_options_accepted :
    validateVolumeOpts "rw,ro" = none ∧
      parseVolumes (fun _ => true) ["/tmp:/data:rw,ro"] = VolRes.ok ∧
      validateVolumeOpts "rw,ro,ro" = some (VolErr.optsRWRO "rw,ro,ro") :=
  ⟨rfl, rfl, rfl⟩

/-- Claim C8.  The claim says `validateVolumeCtrDir` is total on the
empty container-dir string and `parseVolumes` returns a validation error
on `"/tmp:"`.  In fact the Go code reads `ctrDir[0]` unconditionally, so
the empty second part makes it index out of bounds and panic, and
`parseVolumes` crashes instead of returning an error. -/
theorem C8_empty_ctr_dir_panics :
    validateVolumeCtrDir "" = VolRes.panics ∧
      parseVolumes (fun _ => true) ["/tmp:"] = VolRes.panics :=
  ⟨rfl, rfl⟩

/-- Claim C4.  For every requested memory value strictly between 0 and
4MiB, `verifyContainerResources` fails immediately with the
minimum-memory error, for every capability report, every update flag and
every other field content: the memory-minimum check is the first check
and reads only `memory`. -/
theorem C4_memory_min_error (r : Resources) (u : Bool) (si : SysInfo)
    (h0 : 0 < r.memory) (hlt : r.memory < linuxMinMemory) :
    verifyContainerResources r u si = (r, [], some VErr.memMin) := by
  have hc : checkMemoryMin r = (r, [], some VErr.memMin) := by
    unfold checkMemoryMin
    rw [if_pos ⟨by omega, hlt⟩]
  show runChecks (checks u si) r = _
  rw [show checks u si = checkMemoryMin :: (checks u si).drop 1 from rfl,
    runChecks_cons_of_err hc]

/-- Claim C4, witness: memory = 100 bytes is rejected with the
minimum-memory error. -/
theorem C4_witness :
    verifyContainerResources { defaultResources with memory := 100 } false siAllFalse =
      ({ defaultResources with memory := 100 }, [], some VErr.memMin) :=
  C4_memory_min_error _ false siAllFalse (by decide) (by decide)

/-- Claim C6.  Validation is idempotent: a successful (possibly
downgrading) run yields a config on which a second run with the same
update flag and capability report produces no warnings, no error and no
mutation. -/
theorem C6_idempotent (r r' : Resources) (u : Bool) (si : SysInfo) (ws : List String)
    (h : verifyContainerResources r u si = (r', ws, none)) :
    verifyContainerResources r' u si = (r', [], none) :=
  runChecks_noop (runChecks_post_all (checks_idem_all u si) (checks_pairwise_fix u si) h)

/-- Claim C6, witness: re-validating the downgraded output of a run that
discarded an unsupported memory limit is a complete no-op. -/
theorem C6_witness :
    verifyContainerResources { defaultResources with memory := 0, memorySwap := -1 } false
        siAllFalse =
      ({ defaultResources with memory := 0, memorySwap := -1 }, [], none) :=
  C6_idempotent { defaultResources with memory := 8388608, memorySwap := 4194304 } _ false
    siAllFalse [memoryCapWarning] (by decide)

/-- Claim C5.  Whenever `verifyContainerResources` returns a hard error,
the whole outcome (mutated config, warning list and error) is already
produced by the first `n + 1` checks for some `n`, the first `n` of
which pass: nothing after the failing check runs, mutates a field or
adds a warning, and the warnings of the checks before the failure are
all in the returned list. -/
theorem C5_short_circuit (r r' : Resources) (u : Bool) (si : SysInfo)
    (ws : List String) (e : VErr)
    (h : verifyContainerResources r u si = (r', ws, some e)) :
    ∃ n, runChecks ((checks u si).take (n + 1)) r = (r', ws, some e) ∧
      (runChecks ((checks u si).take n) r).2.2 = none :=
  runChecks_err_take h

/-- Claim C5, witness: the minimum-memory failure at memory = 100 is
decided by a prefix of the cascade. -/
theorem C5_witness :
    ∃ n, runChecks ((checks false siAllFalse).take (n + 1))
        { defaultResources with memory := 100 } =
        ({ defaultResources with memory := 100 }, [], some VErr.memMin) ∧
      (runChecks ((checks false siAllFalse).take n)
        { defaultResources with memory := 100 }).2.2 = none :=
  C5_short_circuit _ _ false siAllFalse [] VErr.memMin (by decide)

/-- Claim C9.  A request with `cpuPeriod = 0` and every other field at
its unset default is validated with no error, no warning and no change,
for every update flag and every capability report whose availability
oracles accept the empty cpuset (as the real sysinfo provider always
does). -/
theorem C9_cpu_period_zero_noop (u : Bool) (si : SysInfo)
    (hca : si.isCpusetCpusAvailable "" = some true)
    (hma : si.isCpusetMemsAvailable "" = some true) :
    verifyContainerResources defaultResources u si = (defaultResources, [], none) :=
  runChecks_noop (checks_noop_of_unset u si defaultResources rfl (Or.inl rfl) rfl rfl rfl rfl
    rfl rfl rfl rfl rfl rfl rfl rfl rfl rfl rfl rfl hca hma)

/-- Claim C9, witness: concrete no-op run with every capability absent. -/
theorem C9_witness :
    verifyContainerResources defaultResources true siAllFalse = (defaultResources, [], none) :=
  C9_cpu_period_zero_noop true siAllFalse rfl rfl

end Kpod

namespace Kpod

/-- Claim C3.  When the memory-limit capability is absent and the request
asks for a (legal, at least 4MiB) memory limit with everything else at
its unset default, validation succeeds with exactly one
memory-capability warning, `memory` reset to 0 and `memorySwap` forced to
-1, all other fields untouched; the capability report is otherwise
arbitrary, assuming only that its availability oracles accept the empty
cpuset (as the real sysinfo provider always does). -/
theorem C3_memory_cap_downgrade (m : Int) (u : Bool) (si : SysInfo)
    (hm : linuxMinMemory ≤ m) (hcap : si.MemoryLimit = false)
    (hca : si.isCpusetCpusAvailable "" = some true)
    (hma : si.isCpusetMemsAvailable "" = some true) :
    verifyContainerResources { defaultResources with memory := m } u si =
      ({ defaultResources with memory := 0, memorySwap := -1 }, [memoryCapWarning], none) := by
  have hlin : (0 : Int) < linuxMinMemory := by norm_num [linuxMinMemory]
  have hm0 : (0 : Int) < m := by omega
  have h1 : checkMemoryMin { defaultResources with memory := m } =
      ({ defaultResources with memory := m }, [], none) := by
    rw [checkMemoryMin_fix]
    show ¬(m ≠ 0 ∧ m < linuxMinMemory)
    omega
  have h2 : checkMemoryCap si { defaultResources with memory := m } =
      ({ defaultResources with memory := 0, memorySwap := -1 }, [memoryCapWarning], none) := by
    unfold checkMemoryCap
    rw [if_pos ⟨hm0, hcap⟩]
  have h3 : runChecks ((checks u si).drop 2)
      { defaultResources with memory := 0, memorySwap := -1 } =
      ({ defaultResources with memory := 0, memorySwap := -1 }, [], none) :=
    runChecks_noop (fun c hc =>
      checks_noop_of_unset u si _ rfl (Or.inr rfl) rfl rfl rfl rfl rfl rfl rfl rfl rfl rfl
        rfl rfl rfl rfl rfl rfl hca hma c (List.drop_subset _ _ hc))
  show runChecks (checks u si) _ = _
  rw [show checks u si =
    checkMemoryMin :: checkMemoryCap si :: (checks u si).drop 2 from rfl]
  rw [runChecks_cons_of_ok h1, runChecks_cons_of_ok h2, h3]
  simp

/-- Claim C3, witness: memory = 4MiB exactly, all capabilities absent. -/
theorem C3_witness :
    verifyContainerResources { defaultResources with memory := 4194304 } false siAllFalse =
      ({ defaultResources with memory := 0, memorySwap := -1 }, [memoryCapWarning], none) :=
  C3_memory_cap_downgrade 4194304 false siAllFalse (by decide) rfl rfl rfl

/-- Claim C2, counterexample.  The claim asserts the swap-ordering hard
error for *every* capability report whenever memory>0, swap>0 and
swap<memory.  With the memory-limit capability absent, the capability
check zeroes `memory` (and forces `memorySwap` to -1) before the
ordering check, which therefore never fires: this request with
memory = 8MiB > swap = 4MiB > 0 validates without any error. -/
theorem C2_counterexample :
    verifyContainerResources
        { defaultResources with memory := 8388608, memorySwap := 4194304 } false siAllFalse =
      ({ defaultResources with memory := 0, memorySwap := -1 }, [memoryCapWarning], none) := by
  decide

/-- Claim C2, amended: when the memory-limit and swap-limit capabilities
are both present (and the memory value is itself legal, at least 4MiB),
every request with memorySwap>0 and memorySwap<memory fails with the
swap-ordering hard error, no warnings and no mutation. -/
theorem C2_swap_order_error_amended (r : Resources) (u : Bool) (si : SysInfo)
    (hm : linuxMinMemory ≤ r.memory) (hs : 0 < r.memorySwap)
    (hlt : r.memorySwap < r.memory) (hML : si.MemoryLimit = true)
    (hSL : si.SwapLimit = true) :
    verifyContainerResources r u si = (r, [], some VErr.swapOrder) := by
  have hlin : (0 : Int) < linuxMinMemory := by norm_num [linuxMinMemory]
  have hm0 : (0 : Int) < r.memory := by omega
  have h1 : checkMemoryMin r = (r, [], none) := by
    rw [checkMemoryMin_fix]; omega
  have h2 : checkMemoryCap si r = (r, [], none) := by
    rw [checkMemoryCap_fix]; simp [hML]
  have h3 : checkSwapCap si r = (r, [], none) := by
    rw [checkSwapCap_fix]; simp [hSL]
  have h4 : checkSwapOrder r = (r, [], some VErr.swapOrder) := by
    unfold checkSwapOrder
    rw [if_pos ⟨hm0, hs, hlt⟩]
  show runChecks (checks u si) r = _
  rw [show checks u si = checkMemoryMin :: checkMemoryCap si :: checkSwapCap si ::
    checkSwapOrder :: (checks u si).drop 4 from rfl]
  rw [runChecks_cons_of_ok h1, runChecks_cons_of_ok h2, runChecks_cons_of_ok h3,
    runChecks_cons_of_err h4]
  simp

/-- Claim C2, witness: with all capabilities present, memory = 8MiB and
swap = 4MiB produce the swap-ordering error. -/
theorem C2_witness :
    verifyContainerResources
        { defaultResources with memory := 8388608, memorySwap := 4194304 } false siAllTrue =
      ({ defaultResources with memory := 8388608, memorySwap := 4194304 }, [],
        some VErr.swapOrder) :=
  C2_swap_order_error_amended _ false siAllTrue (by decide) (by decide) (by decide) rfl rfl

end Kpod

namespace Kpod

/-- Claim C7, counterexample.  The claim states an "if and only if":
with the OOM-kill-disable capability absent, an OOM warning is produced
exactly when `disableOomKiller` is true in the request.  But a hard
error in an earlier check aborts the cascade before the OOM check: here
`disableOomKiller = true` and the capability is absent, yet the run
fails on the memory minimum (memory = 100) with an empty warning list,
so the forward direction of the iff is false as stated. -/
theorem C7_counterexample :
    ({ defaultResources with memory := 100, disableOomKiller := true } : Resources).disableOomKiller
        = true ∧
      siAllFalse.OomKillDisable = false ∧
      (verifyContainerResources
        { defaultResources with memory := 100, disableOomKiller := true }
        false siAllFalse).2.1 = [] :=
  ⟨rfl, rfl, by decide⟩

/-- Claim C7, amended.  With the OOM-kill-disable capability absent:
if `disableOomKiller` is false in the request, no OOM warning is ever
produced (no other check emits that warning and no check enables the
flag); if `disableOomKiller` is true and no check before the OOM check
hard-fails, the OOM warning is produced and the result has
`disableOomKiller` reset to false. -/
theorem C7_oom_warning_amended (r : Resources) (u : Bool) (si : SysInfo)
    (hcap : si.OomKillDisable = false) :
    (r.disableOomKiller = false →
      oomKillWarning ∉ (verifyContainerResources r u si).2.1) ∧
    (r.disableOomKiller = true →
      (runChecks ((checks u si).take 11) r).2.2 = none →
      oomKillWarning ∈ (verifyContainerResources r u si).2.1 ∧
        ((verifyContainerResources r u si).1).disableOomKiller = false) := by
  constructor
  · intro hdok hmem
    exact runChecks_warn_inv (checks_dok_false_pres u si) (checks_warn_ne_oom u si) hdok
      oomKillWarning hmem rfl
  · intro hdok h11
    rcases hrun : runChecks ((checks u si).take 11) r with ⟨s₁, w₁, e₁⟩
    rw [hrun] at h11
    dsimp only at h11
    subst h11
    have hs₁ : s₁.disableOomKiller = true := by
      have := @runChecks_pres (fun s => s.disableOomKiller = true) ((checks u si).take 11) r
        (fun c hc s hs => (checks_take11_dok u si c hc s).trans hs) hdok
      rwa [hrun] at this
    have h12 : checkOomKill si s₁ =
        ({ s₁ with disableOomKiller := false }, [oomKillWarning], none) := by
      unfold checkOomKill
      rw [if_pos ⟨hs₁, hcap⟩]
    have hv0 : runChecks (checks u si) r =
        ((runChecks ((checks u si).drop 11) s₁).1,
          w₁ ++ (runChecks ((checks u si).drop 11) s₁).2.1,
          (runChecks ((checks u si).drop 11) s₁).2.2) :=
      (congrArg (fun l => runChecks l r) (List.take_append_drop 11 (checks u si)).symm).trans
        (runChecks_append hrun)
    rw [show (checks u si).drop 11 = checkOomKill si :: (checks u si).drop 12 from rfl] at hv0
    rw [runChecks_cons_of_ok h12] at hv0
    refine ⟨?_, ?_⟩
    · show oomKillWarning ∈ (runChecks (checks u si) r).2.1
      rw [hv0]
      simp
    · show ((runChecks (checks u si) r).1).disableOomKiller = false
      rw [hv0]
      exact @runChecks_pres (fun s => s.disableOomKiller = false) ((checks u si).drop 12)
        { s₁ with disableOomKiller := false }
        (fun c hc s hs => checks_dok_false_pres u si c (List.drop_subset _ _ hc) s hs) rfl

/-- Claim C7, witness: a request that only disables the OOM killer, with
the capability absent, gets the OOM warning and the flag reset. -/
theorem C7_witness :
    oomKillWarning ∈ (verifyContainerResources
        { defaultResources with disableOomKiller := true } false siAllFalse).2.1 ∧
      ((verifyContainerResources { defaultResources with disableOomKiller := true }
        false siAllFalse).1).disableOomKiller = false :=
  (C7_oom_warning_amended { defaultResources with disableOomKiller := true } false siAllFalse
    rfl).2 rfl (by decide)

/-- Claim C10.  Every volume entry whose second colon-separated part is
non-empty and does not start with '/' makes `parseVolumes` return a hard
error: either the host-dir stat fails (its own error) or the
container-dir absolute-path check rejects the entry. -/
theorem C10_ctr_dir_not_absolute (stat : String → Bool) (v a d : String) (t : List String)
    (hsplit : goSplitN3 v ':' = a :: d :: t) (hne : d ≠ "")
    (hslash : d.data.head? ≠ some '/') :
    ∃ e, parseVolumes stat [v] = VolRes.err e := by
  rcases hd : d.data with _ | ⟨c, cs⟩
  · refine absurd ?_ hne
    cases d with
    | mk l =>
      simp only [String.data] at hd
      rw [hd]
  · have hc : c ≠ '/' := by
      rw [hd] at hslash
      simpa using hslash
    have hctr : validateVolumeCtrDir d = VolRes.err (VolErr.ctrDirInvalid d) := by
      unfold validateVolumeCtrDir
      rw [hd]
      dsimp only
      rw [if_pos hc]
    by_cases hstat : stat a
    · refine ⟨VolErr.ctrDirInvalid d, ?_⟩
      simp [parseVolumes, validateVolumeHostDir, hsplit, hstat, hctr]
    · refine ⟨VolErr.hostDirCheck a, ?_⟩
      simp [parseVolumes, validateVolumeHostDir, hsplit, hstat]

/-- Claim C10, witness: `"/tmp:rel/path"` is rejected. -/
theorem C10_witness :
    ∃ e, parseVolumes (fun _ => true) ["/tmp:rel/path"] = VolRes.err e :=
  C10_ctr_dir_not_absolute (fun _ => true) "/tmp:rel/path" "/tmp" "rel/path" []
    (by decide) (by decide) (by decide)

end Kpod
